import Mathlib

/-!
# Token manager (`token_manager.go`, package `golangsdk`)

A shallow embedding of the IAM token manager and a verification of its
specification.

* `int64` values are integers in the range `[-2^63, 2^63 - 1]` (`I64`); every
  arithmetic operation reduces its exact result modulo `2^64` (`I64.wrap`).
* The only floating-point computation of the program is `1.0 - buffer` with
  `buffer := 0.8`, followed by a conversion to `int64`.  Finite `float64`
  values are dyadic rationals; `F64` writes them as `num / 2^exp`.
* `[]error` is a list of error values; the `nil` slice is the empty list.
* The program talks to the identity provider through
  `gorequest.EndStruct(&tm.tokenInfo)`.  The outcome of one such call is an
  `EndStructResult`; the provider together with the transport is an `Endpoint`,
  which gives the outcome of every request.  The requests sent are recorded.
* `time.Now().Unix()` is read once in `isTokenExpired` and once in
  `isRefreshTokenExpired`; the readings are parameters.  The specification
  speaks of one clock value per invocation of `GetToken`: where a statement
  depends on the clock, both readings are that value.
-/

namespace Golangsdk

/-! ## Machine integers and floats -/

/-- A Go `int64`: an integer between `-2^63` and `2^63 - 1`. -/
structure I64 where
  val : Int
  lo : -9223372036854775808 ≤ val
  hi : val ≤ 9223372036854775807
deriving DecidableEq

namespace I64

/-- Reduction of an exact integer result to the `int64` that Go computes
(two's complement wrap-around). -/
def wrap (z : Int) : I64 :=
  ⟨(z + 9223372036854775808) % 18446744073709551616 - 9223372036854775808,
    by omega, by omega⟩

instance (n : Nat) : OfNat I64 n := ⟨wrap n⟩

/-- Go `a + b` on `int64`. -/
def add (a b : I64) : I64 := wrap (a.val + b.val)

/-- Go `a - b` on `int64`. -/
def sub (a b : I64) : I64 := wrap (a.val - b.val)

/-- Go `a * b` on `int64`. -/
def mul (a b : I64) : I64 := wrap (a.val * b.val)

/-- Go `a < b` on `int64`. -/
def lt (a b : I64) : Bool := decide (a.val < b.val)

end I64

/-- A finite `float64` value, written as the dyadic rational `num / 2^exp`. -/
structure F64 where
  num : Int
  exp : Nat
deriving DecidableEq

namespace F64

/-- The rational number a float stands for. -/
def toRat (a : F64) : ℚ := (a.num : ℚ) / (2 : ℚ) ^ a.exp

/-- The constant `1.0`. -/
def one : F64 := ⟨1, 0⟩

/-- The `float64` nearest to the decimal literal `0.8`, which is
`3602879701896397 / 2^52`. -/
def lit_0_8 : F64 := ⟨3602879701896397, 52⟩

/-- Difference of two floats over the common denominator.  The program only
subtracts `0.8` from `1.0`; that difference, `900719925474099 / 2^52`, has a
50-bit numerator, so it is a `float64` and the machine subtraction is exact. -/
def sub (a b : F64) : F64 :=
  ⟨a.num * 2 ^ (max a.exp b.exp - a.exp) - b.num * 2 ^ (max a.exp b.exp - b.exp),
    max a.exp b.exp⟩

/-- Go `int64(x)` for a float `x`: the fraction is discarded (truncation
toward zero). -/
def toInt64 (a : F64) : I64 := I64.wrap (Int.tdiv a.num (2 ^ a.exp))

end F64

/-! ## Data model -/

/-- Response struct from token request (`TokenInfo`). -/
structure TokenInfo where
  AccessToken : String
  RefreshToken : String
  TokenType : String
  ExpiresIn : I64
  Expiration : I64
deriving DecidableEq

/-- The zero value `TokenInfo{}`. -/
def TokenInfo.zero : TokenInfo := ⟨"", "", "", 0, 0⟩

/-- IAM token information (`TokenManager`). -/
structure TokenManager where
  userToken : String
  iamAPIkey : String
  iamURL : String
  tokenInfo : TokenInfo
deriving DecidableEq

/-- Instantiate a `TokenManager`. -/
def NewTokenManager : TokenManager :=
  { userToken := "", iamAPIkey := "", iamURL := "https://iam.bluemix.net/identity/token",
    tokenInfo := TokenInfo.zero }

/-- An `error` value. -/
inductive GoError where
  /-- an error reported by the HTTP client or by the JSON decoder -/
  | external (msg : String)
  /-- the value of `fmt.Errorf(format)` -/
  | errorf (format : String)
deriving DecidableEq

/-- A `map[string]string` literal, as the list of its entries. -/
abbrev Body := List (String × String)

/-- One request handed to the HTTP client. -/
structure Request where
  url : String
  headers : List (String × String)
  body : Body
deriving DecidableEq

/-- The members of a response's JSON object that the tags of `TokenInfo` name
and that hold a value of the field's type.  `none`: the member is missing
(or `null`, or of another type). -/
structure TokenJSON where
  access_token : Option String
  refresh_token : Option String
  token_type : Option String
  expires_in : Option I64
  expiration : Option I64
deriving DecidableEq

/-- The effect of `json.Unmarshal(body, &v)` with `v` pointing to an existing `TokenInfo`:
a field whose member is present is assigned, every other field keeps the
value it had. -/
def TokenJSON.Unmarshal (js : TokenJSON) (v : TokenInfo) : TokenInfo :=
  { AccessToken := js.access_token.getD v.AccessToken
    RefreshToken := js.refresh_token.getD v.RefreshToken
    TokenType := js.token_type.getD v.TokenType
    ExpiresIn := js.expires_in.getD v.ExpiresIn
    Expiration := js.expiration.getD v.Expiration }

/-- The record a response decodes to by itself (decoding into `TokenInfo{}`). -/
def TokenJSON.record (js : TokenJSON) : TokenInfo := js.Unmarshal TokenInfo.zero

/-- The response carries all five members. -/
def TokenJSON.complete (js : TokenJSON) : Bool :=
  js.access_token.isSome && js.refresh_token.isSome && js.token_type.isSome &&
    js.expires_in.isSome && js.expiration.isSome

/-- What one call `req.New().Post(url). ... .Send(body).EndStruct(&tm.tokenInfo)`
does (gorequest):

* `transportError e es`: the request could not be completed; `EndStruct` returns
  `(nil, body, errs)` with `errs = e :: es` and does not touch its target;
* `response statusCode status js decodeErr`: a response arrived.  `EndStruct`
  hands its body to `json.Unmarshal` whatever the status code is; `js` are the
  members it assigns.  When the decoder rejects the body (`decodeErr = some e`)
  `EndStruct` returns `(resp, body, [e])`, otherwise `(resp, body, nil)`. -/
inductive EndStructResult where
  | transportError (e : GoError) (es : List GoError)
  | response (statusCode : Int) (status : String) (js : TokenJSON) (decodeErr : Option GoError)
deriving DecidableEq

/-- The identity provider and the transport: the outcome of a request, given
the number of requests sent before it in the same invocation. -/
abbrev Endpoint := Nat → Request → EndStructResult

/-- A token manager together with the requests sent so far (oldest first). -/
structure Session where
  tm : TokenManager
  sent : List Request
deriving DecidableEq

/-! ## Operations -/

namespace TokenManager

/-- Method `requestTokenBody`: the grant body of a full acquisition. -/
def requestTokenBody (tm : TokenManager) : Body :=
  [("grant_type", "urn:ibm:params:oauth:grant-type:apikey"),
   ("apikey", tm.iamAPIkey),
   ("response_type", "cloud_iam")]

/-- Method `refreshTokenBody`: the grant body of a renewal. -/
def refreshTokenBody (tm : TokenManager) : Body :=
  [("grant_type", "refresh_token"),
   ("refresh_token", tm.tokenInfo.RefreshToken)]

/-- The request `postToken` builds from a grant body. -/
def tokenRequest (tm : TokenManager) (body : Body) : Request :=
  { url := tm.iamURL
    headers := [("Accept", "application/json"),
                ("Content-Type", "application/x-www-form-urlencoded"),
                ("Authorization", "Basic Yng6Yng=")]
    body := body }

/-- Method `postToken`: send the grant body; the decoder writes into `tm.tokenInfo`;
then the errors of `EndStruct` are returned if there are any, otherwise an
error made from the status line if the status code is outside `200..299`,
otherwise `nil`. -/
def postToken (net : Endpoint) (s : Session) (body : Body) : Session × List GoError :=
  let rq := s.tm.tokenRequest body
  let sent := s.sent ++ [rq]
  match net s.sent.length rq with
  | .transportError e es => (⟨s.tm, sent⟩, e :: es)
  | .response statusCode status js decodeErr =>
    let tm1 : TokenManager := { s.tm with tokenInfo := js.Unmarshal s.tm.tokenInfo }
    match decodeErr with
    | some e => (⟨tm1, sent⟩, [e])
    | none =>
      if statusCode < 200 ∨ statusCode ≥ 300 then
        (⟨tm1, sent⟩, [GoError.errorf status])
      else
        (⟨tm1, sent⟩, [])

/-- Method `SetToken`: set token so that user manages token. -/
def SetToken (tm : TokenManager) (token : String) : TokenManager :=
  { tm with userToken := token }

/-- Method `SetKey`: set API key so that SDK manages token. -/
def SetKey (tm : TokenManager) (key : String) : TokenManager :=
  { tm with iamAPIkey := key }

/-- The local `buffer := 0.8` of `isTokenExpired`. -/
def buffer : F64 := F64.lit_0_8

/-- Method `isTokenExpired`, with `now` the value of `time.Now().Unix()`:
`refreshTime := expireTime - (expiresIn * int64(1.0 - buffer))`, and the
result is `refreshTime < currTime`. -/
def isTokenExpired (tm : TokenManager) (now : I64) : Bool :=
  let expiresIn := tm.tokenInfo.ExpiresIn
  let expireTime := tm.tokenInfo.Expiration
  let refreshTime := expireTime.sub (expiresIn.mul (F64.toInt64 (F64.sub F64.one buffer)))
  refreshTime.lt now

/-- Method `isRefreshTokenExpired`, with `now` the value of `time.Now().Unix()`. -/
def isRefreshTokenExpired (tm : TokenManager) (now : I64) : Bool :=
  let expiresIn : I64 := I64.wrap (7 * 24 * 3600)
  let refreshTime := tm.tokenInfo.Expiration.add expiresIn
  refreshTime.lt now

/-- What one invocation of `GetToken` returns and leaves behind. -/
structure Result where
  /-- the returned string -/
  token : String
  /-- the returned `[]error` (`[]` is `nil`) -/
  errs : List GoError
  /-- the manager after the call -/
  tm : TokenManager
  /-- the requests sent during the call, oldest first -/
  sent : List Request
deriving DecidableEq

/-- Method `GetToken`: return token set by user or fresh token.  `now₁` is the clock
reading taken by `isTokenExpired`, `now₂` the one taken by
`isRefreshTokenExpired`. -/
def GetToken (net : Endpoint) (now₁ now₂ : I64) (tm : TokenManager) : Result :=
  if tm.userToken ≠ "" then
    ⟨tm.userToken, [], tm, []⟩
  else
    let s0 : Session := ⟨tm, []⟩
    let r1 : Session × List GoError :=
      if s0.tm.tokenInfo.AccessToken = "" then
        postToken net s0 s0.tm.requestTokenBody
      else
        (s0, [])
    let r2 : Session × List GoError :=
      if r1.1.tm.isTokenExpired now₁ then
        if r1.1.tm.isRefreshTokenExpired now₂ then
          postToken net r1.1 r1.1.tm.requestTokenBody
        else
          postToken net r1.1 r1.1.tm.refreshTokenBody
      else
        r1
    if r2.2 ≠ [] then
      ⟨"", r2.2, r2.1.tm, r2.1.sent⟩
    else
      ⟨r2.1.tm.tokenInfo.AccessToken, [], r2.1.tm, r2.1.sent⟩

end TokenManager

/-! ## Vocabulary of the specification -/

/-- The `grant_type` entry of a request. -/
def Request.grantType (rq : Request) : Option String := rq.body.lookup "grant_type"

/-- A key-grant: a request with `grant_type` set to the API-key grant. -/
def Request.isKeyGrant (rq : Request) : Bool :=
  rq.grantType == some "urn:ibm:params:oauth:grant-type:apikey"

/-- A refresh-grant: a request with `grant_type` set to `refresh_token`. -/
def Request.isRefreshGrant (rq : Request) : Bool :=
  rq.grantType == some "refresh_token"

/-- The renewal threshold of the specification in exact arithmetic:
`refreshAt = expiration - expiresIn * (1 - 0.8)`. -/
def refreshAt (info : TokenInfo) : ℚ :=
  (info.Expiration.val : ℚ) - (info.ExpiresIn.val : ℚ) * (1 - 0.8)

/-- An endpoint call that failed in the sense of the specification: a transport
error, or a response with a status code outside `200..299`. -/
def EndStructResult.failed : EndStructResult → Bool
  | .transportError _ _ => true
  | .response statusCode _ _ _ => decide (statusCode < 200 ∨ statusCode ≥ 300)

/-! ## Sample states, endpoints and call sequences -/

/-- A response `200 OK` that carries all five members. -/
def okResponse (token : String) (expiration : I64) : EndStructResult :=
  .response 200 "200 OK" ⟨some token, some "R1", some "Bearer", some 3600, some expiration⟩ none

/-- An endpoint that answers every request with `200 OK` and the token `"A"`,
expiring at `5000`. -/
def alwaysOk : Endpoint := fun _ _ => okResponse "A" 5000

/-- An endpoint that never completes a request. -/
def unreachableNet : Endpoint := fun _ _ => .transportError (.external "dial tcp: timeout") []

/-- A manager holding the token `"tok"` with the given `ExpiresIn` and
`Expiration`. -/
def cachedManager (expiresIn expiration : I64) : TokenManager :=
  { NewTokenManager with tokenInfo := ⟨"tok", "ref", "Bearer", expiresIn, expiration⟩ }

/-- An endpoint whose first answer is `200 OK` with a record that expired at
`500`, and which cannot be reached afterwards. -/
def expiredThenDown : Endpoint := fun n _ =>
  if n = 0 then okResponse "A" 500 else .transportError (.external "dial tcp: timeout") []

/-- An endpoint that cannot be reached for the first request and answers the
second with `200 OK`. -/
def downThenOk : Endpoint := fun n _ =>
  if n = 0 then .transportError (.external "dial tcp: timeout") []
  else okResponse "T" 2000000

/-- An endpoint that answers every request with status `500` and an error
document without token members. -/
def alwaysError : Endpoint := fun _ _ =>
  .response 500 "500 Internal Server Error" ⟨none, none, none, none, none⟩ none

/-- An endpoint that answers with status `500` and a body that has an
`access_token` member. -/
def errorWithToken : Endpoint := fun _ _ =>
  .response 500 "500 Internal Server Error" ⟨some "X", none, none, none, none⟩ none

/-- An endpoint that answers `200 OK` with a body the JSON decoder rejects. -/
def okUndecodable : Endpoint := fun _ _ =>
  .response 200 "200 OK" ⟨none, none, none, none, none⟩
    (some (.external "invalid character '<' looking for beginning of value"))

/-- An endpoint that answers `200 OK` with a body that has an `access_token`
and an `expiration` member only. -/
def okWithoutRefresh : Endpoint := fun _ _ =>
  .response 200 "200 OK" ⟨some "B", none, none, none, some 9000⟩ none

/-- One call made on a manager after `SetToken`: `SetKey(key)`, or `GetToken()`
with the endpoint behaviour and the clock readings it meets. -/
inductive Call where
  | SetKey (key : String)
  | GetToken (net : Endpoint) (now₁ now₂ : I64)

/-- The manager after one call and, for `GetToken`, what the call returned. -/
def TokenManager.perform (tm : TokenManager) : Call → TokenManager × Option TokenManager.Result
  | .SetKey key => (tm.SetKey key, none)
  | .GetToken net now₁ now₂ =>
    ((TokenManager.GetToken net now₁ now₂ tm).tm, some (TokenManager.GetToken net now₁ now₂ tm))

/-- The history of a sequence of calls: after each call, the manager and what
the call returned. -/
def TokenManager.history (tm : TokenManager) :
    List Call → List (TokenManager × Option TokenManager.Result)
  | [] => []
  | c :: cs => tm.perform c :: TokenManager.history (tm.perform c).1 cs

/-- The grant body chosen by the expiry step of `GetToken` (lines 47-51): the
key-grant when the refresh-token test finds the refresh token expired, the
refresh-grant otherwise. -/
def TokenManager.expiryStepBody (tm : TokenManager) (now : I64) : Body :=
  if tm.isRefreshTokenExpired now = true then tm.requestTokenBody else tm.refreshTokenBody

/-- An endpoint whose first answer is `200 OK` with a record that expired at
`500`, and whose second answer is `200 OK` with a record expiring at `5000`. -/
def expiredThenOk : Endpoint := fun n _ =>
  if n = 0 then okResponse "A" 500 else okResponse "B" 5000

/-- The record left by the first answer of `expiredThenOk`. -/
def expiredRecord : TokenInfo := ⟨"A", "R1", "Bearer", 3600, 500⟩

/-- A manager with no cached accessToken whose record still holds the refresh
token `"old"` (the state a response without `access_token` leaves behind). -/
def leftoverManager : TokenManager :=
  { NewTokenManager with tokenInfo := ⟨"", "old", "", 0, 0⟩ }

/-- The members of a `200 OK` response that has no `refresh_token` and expired
at `500`. -/
def withoutRefreshMembers : TokenJSON := ⟨some "A", none, some "Bearer", some 3600, some 500⟩

/-- An endpoint whose first answer is `200 OK` with `withoutRefreshMembers`, and
whose second answer is `200 OK` with a record expiring at `5000`. -/
def partialThenOk : Endpoint := fun n _ =>
  if n = 0 then .response 200 "200 OK" withoutRefreshMembers none else okResponse "B" 5000

/-! ## Arithmetic of the two expiry tests -/

theorem I64.wrap_val_of_inRange (z : Int) (h₁ : -9223372036854775808 ≤ z)
    (h₂ : z ≤ 9223372036854775807) : (I64.wrap z).val = z := by
  simp only [I64.wrap]
  omega

theorem I64.wrap_val_self (a : I64) : I64.wrap a.val = a := by
  cases a with
  | mk v lo hi =>
    simp only [I64.wrap, I64.mk.injEq]
    omega

/-- The factor `int64(1.0 - buffer)` of `isTokenExpired` is `0`. -/
theorem TokenManager.margin_factor :
    F64.toInt64 (F64.sub F64.one TokenManager.buffer) = I64.wrap 0 := by
  decide

/-- As a rational, `1.0 - buffer` lies strictly between `0` and `1`. -/
theorem TokenManager.one_sub_buffer_toRat :
    0 < (F64.sub F64.one TokenManager.buffer).toRat ∧
      (F64.sub F64.one TokenManager.buffer).toRat < 1 := by
  have h : F64.sub F64.one TokenManager.buffer = ⟨900719925474099, 52⟩ := by decide
  rw [h]
  simp only [F64.toRat]
  norm_num

/-- The freshness test compares `Expiration` itself with the clock. -/
theorem TokenManager.isTokenExpired_eq (tm : TokenManager) (now : I64) :
    tm.isTokenExpired now = decide (tm.tokenInfo.Expiration.val < now.val) := by
  simp only [TokenManager.isTokenExpired, TokenManager.margin_factor, I64.mul, I64.sub, I64.lt]
  have h0 : (I64.wrap 0).val = 0 := by decide
  rw [h0, mul_zero, h0, sub_zero, I64.wrap_val_self]

/-- Without overflow the refresh-token test compares `Expiration + 604800`
with the clock. -/
theorem TokenManager.isRefreshTokenExpired_eq (tm : TokenManager) (now : I64)
    (h : tm.tokenInfo.Expiration.val ≤ 9223372036854775807 - 604800) :
    tm.isRefreshTokenExpired now = decide (tm.tokenInfo.Expiration.val + 604800 < now.val) := by
  simp only [TokenManager.isRefreshTokenExpired, I64.add, I64.lt]
  have hw : (I64.wrap (7 * 24 * 3600)).val = 604800 := by decide
  have hlo := tm.tokenInfo.Expiration.lo
  have key : (I64.wrap (tm.tokenInfo.Expiration.val + (I64.wrap (7 * 24 * 3600)).val)).val
      = tm.tokenInfo.Expiration.val + 604800 := by
    rw [hw]
    exact I64.wrap_val_of_inRange _ (by omega) (by omega)
  simp only [key]

/-! ## Pinned tokens -/

/-- C1, as stated, fails at the empty string: after `SetToken("")` on a new
manager nothing is pinned, and `GetToken` sends a key-grant and returns the
token of the response. -/
theorem GetToken_after_SetToken_empty :
    (TokenManager.GetToken alwaysOk 1000 1000 (NewTokenManager.SetToken "")).token ≠ "" ∧
      (TokenManager.GetToken alwaysOk 1000 1000 (NewTokenManager.SetToken "")).token = "A" ∧
      (TokenManager.GetToken alwaysOk 1000 1000 (NewTokenManager.SetToken "")).sent
        = [NewTokenManager.tokenRequest NewTokenManager.requestTokenBody] ∧
      (TokenManager.GetToken alwaysOk 1000 1000 (NewTokenManager.SetToken "")).tm.tokenInfo
        ≠ NewTokenManager.tokenInfo := by
  decide

/-- C1 (amended): for every non-empty string `t`, every manager (any API key,
any cached record), every clock reading and every endpoint: after `SetToken(t)`
`GetToken` returns `(t, nil)`, sends no request and leaves the cached record
(indeed the whole manager) as `SetToken` left it. -/
theorem GetToken_after_SetToken (t : String) (ht : t ≠ "") (tm : TokenManager)
    (net : Endpoint) (now₁ now₂ : I64) :
    (TokenManager.GetToken net now₁ now₂ (tm.SetToken t)).token = t ∧
      (TokenManager.GetToken net now₁ now₂ (tm.SetToken t)).errs = [] ∧
      (TokenManager.GetToken net now₁ now₂ (tm.SetToken t)).sent = [] ∧
      (TokenManager.GetToken net now₁ now₂ (tm.SetToken t)).tm.tokenInfo = tm.tokenInfo ∧
      (TokenManager.GetToken net now₁ now₂ (tm.SetToken t)).tm = tm.SetToken t := by
  simp [TokenManager.GetToken, TokenManager.SetToken, ht]

theorem GetToken_after_SetToken_witness :
    (TokenManager.GetToken unreachableNet 7 9 ((cachedManager 3600 0).SetToken "pinned")).token
        = "pinned" ∧
      (TokenManager.GetToken unreachableNet 7 9 ((cachedManager 3600 0).SetToken "pinned")).errs
        = [] ∧
      (TokenManager.GetToken unreachableNet 7 9 ((cachedManager 3600 0).SetToken "pinned")).sent
        = [] ∧
      (TokenManager.GetToken unreachableNet 7 9
        ((cachedManager 3600 0).SetToken "pinned")).tm.tokenInfo = (cachedManager 3600 0).tokenInfo ∧
      (TokenManager.GetToken unreachableNet 7 9 ((cachedManager 3600 0).SetToken "pinned")).tm
        = (cachedManager 3600 0).SetToken "pinned" :=
  GetToken_after_SetToken "pinned" (by decide) (cachedManager 3600 0) unreachableNet 7 9

/-! ## The freshness test -/

/-- C2: the code at `expiresIn = 3600`, `expiration = t0 + 3600` with `t0 = 0`.
The token is fresh at clock `0`; the threshold of the specification is `2880`;
at clock `3000 > 2880` the specification's test `refreshAt < now` holds, and
`isTokenExpired` answers `false`. -/
theorem isTokenExpired_ignores_margin :
    (cachedManager 3600 3600).isTokenExpired 0 = false ∧
      refreshAt (cachedManager 3600 3600).tokenInfo = 2880 ∧
      refreshAt (cachedManager 3600 3600).tokenInfo < ((3000 : I64).val : ℚ) ∧
      (cachedManager 3600 3600).isTokenExpired 3000 = false := by
  have h1 : (cachedManager 3600 3600).tokenInfo.Expiration.val = 3600 := by decide
  have h2 : (cachedManager 3600 3600).tokenInfo.ExpiresIn.val = 3600 := by decide
  have h3 : (3000 : I64).val = 3000 := by decide
  refine ⟨by decide, ?_, ?_, by decide⟩
  · rw [refreshAt, h1, h2]; norm_num
  · rw [refreshAt, h1, h2, h3]; norm_num

/-- C3: the code at a record with `expiresIn = -1000`, `expiration = 0` and
clock `100`.  The threshold `expiration - expiresIn * 0.2 = 200` is strictly
greater than the clock, no token is pinned and a token is cached, yet
`GetToken` sends a request (a refresh-grant). -/
theorem GetToken_negative_expiresIn :
    (cachedManager (I64.wrap (-1000)) 0).userToken = "" ∧
      (cachedManager (I64.wrap (-1000)) 0).tokenInfo.AccessToken ≠ "" ∧
      ((100 : I64).val : ℚ) < refreshAt (cachedManager (I64.wrap (-1000)) 0).tokenInfo ∧
      (TokenManager.GetToken alwaysOk 100 100 (cachedManager (I64.wrap (-1000)) 0)).sent
        = [(cachedManager (I64.wrap (-1000)) 0).tokenRequest
            [("grant_type", "refresh_token"), ("refresh_token", "ref")]] ∧
      (TokenManager.GetToken alwaysOk 100 100 (cachedManager (I64.wrap (-1000)) 0)).token
        = "A" := by
  have h1 : (cachedManager (I64.wrap (-1000)) 0).tokenInfo.Expiration.val = 0 := by decide
  have h2 : (cachedManager (I64.wrap (-1000)) 0).tokenInfo.ExpiresIn.val = -1000 := by decide
  have h3 : (100 : I64).val = 100 := by decide
  refine ⟨by decide, by decide, ?_, by decide, by decide⟩
  rw [refreshAt, h1, h2, h3]; norm_num

/-- C4: the code at `expiresIn = 3600`, `expiration = 3600` and clock `3000`.
`refreshAt = 2880` is strictly before the clock and `expiration + 604800` is not
before it, no token is pinned and a token is cached, yet `GetToken` sends no
request at all and returns the cached token. -/
theorem GetToken_past_refreshAt_no_renewal :
    (cachedManager 3600 3600).userToken = "" ∧
      (cachedManager 3600 3600).tokenInfo.AccessToken ≠ "" ∧
      refreshAt (cachedManager 3600 3600).tokenInfo < ((3000 : I64).val : ℚ) ∧
      ¬ ((cachedManager 3600 3600).tokenInfo.Expiration.val + 604800 < (3000 : I64).val) ∧
      (TokenManager.GetToken alwaysOk 3000 3000 (cachedManager 3600 3600)).sent = [] ∧
      (TokenManager.GetToken alwaysOk 3000 3000 (cachedManager 3600 3600)).token = "tok" := by
  have h1 : (cachedManager 3600 3600).tokenInfo.Expiration.val = 3600 := by decide
  have h2 : (cachedManager 3600 3600).tokenInfo.ExpiresIn.val = 3600 := by decide
  have h3 : (3000 : I64).val = 3000 := by decide
  refine ⟨by decide, by decide, ?_, by decide, by decide, by decide⟩
  rw [refreshAt, h1, h2, h3]; norm_num

/-! ## Acquisition and renewal -/

/-- Every call of `postToken` sends exactly one request, built from the body. -/
theorem TokenManager.postToken_sent (net : Endpoint) (s : Session) (body : Body) :
    (TokenManager.postToken net s body).1.sent = s.sent ++ [s.tm.tokenRequest body] := by
  unfold TokenManager.postToken
  dsimp only
  generalize net s.sent.length (s.tm.tokenRequest body) = o
  cases o with
  | transportError e es => rfl
  | response statusCode status js decodeErr =>
    cases decodeErr with
    | some e => rfl
    | none => dsimp only; split <;> rfl

/-- The `postToken` call of a response that is accepted. -/
theorem TokenManager.postToken_of_success (net : Endpoint) (s : Session) (body : Body)
    (statusCode : Int) (status : String) (js : TokenJSON)
    (hnet : net s.sent.length (s.tm.tokenRequest body) = .response statusCode status js none)
    (h₁ : 200 ≤ statusCode) (h₂ : statusCode ≤ 299) :
    TokenManager.postToken net s body =
      (⟨{ s.tm with tokenInfo := js.Unmarshal s.tm.tokenInfo }, s.sent ++ [s.tm.tokenRequest body]⟩,
        []) := by
  have hc : ¬ (statusCode < 200 ∨ statusCode ≥ 300) := by omega
  simp [TokenManager.postToken, hnet, hc]

/-- C5: for every state with no static token pinned and a non-empty cached
accessToken, every clock value `now` with `refreshAt` strictly before `now` and
`expiration + 604800` strictly before `now`, every key set by `SetKey` and every
endpoint: `GetToken` sends exactly one request, its body is
`{grant_type: "urn:ibm:params:oauth:grant-type:apikey", apikey: key,
response_type: "cloud_iam"}`, it is a key-grant, and no refresh-grant is sent. -/
theorem GetToken_key_grant_after_refresh_window (tm : TokenManager) (key : String)
    (net : Endpoint) (now : I64)
    (hpin : tm.userToken = "") (hacc : tm.tokenInfo.AccessToken ≠ "")
    (_hstale : refreshAt tm.tokenInfo < (now.val : ℚ))
    (hwindow : tm.tokenInfo.Expiration.val + 604800 < now.val) :
    (TokenManager.GetToken net now now (tm.SetKey key)).sent =
        [{ url := tm.iamURL
           headers := [("Accept", "application/json"),
                       ("Content-Type", "application/x-www-form-urlencoded"),
                       ("Authorization", "Basic Yng6Yng=")]
           body := [("grant_type", "urn:ibm:params:oauth:grant-type:apikey"),
                    ("apikey", key),
                    ("response_type", "cloud_iam")] }] ∧
      ∀ rq ∈ (TokenManager.GetToken net now now (tm.SetKey key)).sent,
        rq.isKeyGrant = true ∧ rq.isRefreshGrant = false := by
  have hhi := now.hi
  have hexp : ((tm.SetKey key).isTokenExpired now) = true := by
    rw [TokenManager.isTokenExpired_eq]
    simp only [TokenManager.SetKey, decide_eq_true_eq]
    omega
  have hrex : ((tm.SetKey key).isRefreshTokenExpired now) = true := by
    rw [TokenManager.isRefreshTokenExpired_eq _ _ (by simp only [TokenManager.SetKey]; omega)]
    simp only [TokenManager.SetKey, decide_eq_true_eq]
    omega
  have hsent : (TokenManager.GetToken net now now (tm.SetKey key)).sent =
      [(tm.SetKey key).tokenRequest (tm.SetKey key).requestTokenBody] := by
    have hp : (tm.SetKey key).userToken = "" := hpin
    have ha : (tm.SetKey key).tokenInfo.AccessToken ≠ "" := hacc
    unfold TokenManager.GetToken
    simp only [hp, ha, hexp, hrex, ne_eq, not_true_eq_false, if_false, if_true]
    split <;> simp [TokenManager.postToken_sent]
  rw [hsent]
  refine ⟨rfl, ?_⟩
  intro rq hrq
  rw [List.mem_singleton] at hrq
  subst hrq
  exact ⟨rfl, rfl⟩

theorem GetToken_key_grant_after_refresh_window_witness :
    (TokenManager.GetToken alwaysOk 1000000 1000000 ((cachedManager 3600 3600).SetKey "k")).sent =
        [{ url := (cachedManager 3600 3600).iamURL
           headers := [("Accept", "application/json"),
                       ("Content-Type", "application/x-www-form-urlencoded"),
                       ("Authorization", "Basic Yng6Yng=")]
           body := [("grant_type", "urn:ibm:params:oauth:grant-type:apikey"),
                    ("apikey", "k"),
                    ("response_type", "cloud_iam")] }] ∧
      ∀ rq ∈ (TokenManager.GetToken alwaysOk 1000000 1000000
          ((cachedManager 3600 3600).SetKey "k")).sent,
        rq.isKeyGrant = true ∧ rq.isRefreshGrant = false :=
  GetToken_key_grant_after_refresh_window (cachedManager 3600 3600) "k" alwaysOk 1000000
    (by decide) (by decide)
    (by
      have h1 : (cachedManager 3600 3600).tokenInfo.Expiration.val = 3600 := by decide
      have h2 : (cachedManager 3600 3600).tokenInfo.ExpiresIn.val = 3600 := by decide
      have h3 : (1000000 : I64).val = 1000000 := by decide
      rw [refreshAt, h1, h2, h3]; norm_num)
    (by decide)

/-- C6, as stated, fails when the record of the response is already expired: on
a new manager at clock `1000` the key-grant succeeds with a record `R` expiring
at `500`; `GetToken` then sends a second request, which fails, and returns the
empty string with an error instead of `(R.accessToken, nil)`. -/
theorem GetToken_first_acquisition_expired_record :
    NewTokenManager.userToken = "" ∧ NewTokenManager.tokenInfo.AccessToken = "" ∧
      expiredThenDown 0 (NewTokenManager.tokenRequest NewTokenManager.requestTokenBody)
        = okResponse "A" 500 ∧
      ¬ ((TokenManager.GetToken expiredThenDown 1000 1000 NewTokenManager).token = "A" ∧
          (TokenManager.GetToken expiredThenDown 1000 1000 NewTokenManager).errs = []) ∧
      (TokenManager.GetToken expiredThenDown 1000 1000 NewTokenManager).token = "" ∧
      (TokenManager.GetToken expiredThenDown 1000 1000 NewTokenManager).sent.length = 2 := by
  decide

/-- C6 (amended): for every state with no static token pinned and an empty
cached accessToken, if the key-grant call succeeds (status in `200..299`, body
decoded) and the record it leaves in the cache is not expired at the clock value
(`expiration ≥ now`), then `GetToken` sends that one request only and returns
`(accessToken of the cached record, nil)`; the cached record after the call is
the previous record with the members of the response written over it, and it
equals the response record `R` in all five fields when the response carries all
five members or the previous record was the zero record. -/
theorem GetToken_first_acquisition (tm : TokenManager) (net : Endpoint) (now : I64)
    (statusCode : Int) (status : String) (js : TokenJSON)
    (hpin : tm.userToken = "") (hempty : tm.tokenInfo.AccessToken = "")
    (hnet : net 0 (tm.tokenRequest tm.requestTokenBody) = .response statusCode status js none)
    (h₁ : 200 ≤ statusCode) (h₂ : statusCode ≤ 299)
    (hfresh : now.val ≤ (js.Unmarshal tm.tokenInfo).Expiration.val) :
    (TokenManager.GetToken net now now tm).sent = [tm.tokenRequest tm.requestTokenBody] ∧
      (TokenManager.GetToken net now now tm).errs = [] ∧
      (TokenManager.GetToken net now now tm).tm.tokenInfo = js.Unmarshal tm.tokenInfo ∧
      (TokenManager.GetToken net now now tm).token = (js.Unmarshal tm.tokenInfo).AccessToken ∧
      (js.complete = true ∨ tm.tokenInfo = TokenInfo.zero →
        (TokenManager.GetToken net now now tm).tm.tokenInfo = js.record ∧
        (TokenManager.GetToken net now now tm).token = js.record.AccessToken) := by
  obtain ⟨u, k, url, info⟩ := tm
  dsimp only at hpin hempty hfresh
  subst hpin
  have hpost := TokenManager.postToken_of_success net ⟨⟨"", k, url, info⟩, []⟩
    (TokenManager.requestTokenBody ⟨"", k, url, info⟩) statusCode status js hnet h₁ h₂
  have hne : TokenManager.isTokenExpired ⟨"", k, url, js.Unmarshal info⟩ now = false := by
    rw [TokenManager.isTokenExpired_eq]
    simp only [decide_eq_false_iff_not]
    omega
  have hres : TokenManager.GetToken net now now ⟨"", k, url, info⟩ =
      ⟨(js.Unmarshal info).AccessToken, [], ⟨"", k, url, js.Unmarshal info⟩,
        [TokenManager.tokenRequest ⟨"", k, url, info⟩
          (TokenManager.requestTokenBody ⟨"", k, url, info⟩)]⟩ := by
    unfold TokenManager.GetToken
    simp [hempty, hpost, hne]
  rw [hres]
  refine ⟨rfl, rfl, rfl, rfl, ?_⟩
  intro h
  have hrec : js.Unmarshal info = js.record := by
    rcases h with h | h
    · cases js with
      | mk a r t e x =>
        cases a <;> cases r <;> cases t <;> cases e <;> cases x <;>
          simp_all [TokenJSON.complete, TokenJSON.record, TokenJSON.Unmarshal]
    · dsimp only at h; rw [h]; rfl
  simp only [hrec, and_self]

theorem GetToken_first_acquisition_witness :
    (TokenManager.GetToken alwaysOk 1000 1000 NewTokenManager).sent
        = [NewTokenManager.tokenRequest NewTokenManager.requestTokenBody] ∧
      (TokenManager.GetToken alwaysOk 1000 1000 NewTokenManager).errs = [] ∧
      (TokenManager.GetToken alwaysOk 1000 1000 NewTokenManager).tm.tokenInfo
        = TokenJSON.Unmarshal ⟨some "A", some "R1", some "Bearer", some 3600, some 5000⟩
            NewTokenManager.tokenInfo ∧
      (TokenManager.GetToken alwaysOk 1000 1000 NewTokenManager).token
        = (TokenJSON.Unmarshal ⟨some "A", some "R1", some "Bearer", some 3600, some 5000⟩
            NewTokenManager.tokenInfo).AccessToken ∧
      (TokenJSON.complete ⟨some "A", some "R1", some "Bearer", some 3600, some 5000⟩ = true ∨
          NewTokenManager.tokenInfo = TokenInfo.zero →
        (TokenManager.GetToken alwaysOk 1000 1000 NewTokenManager).tm.tokenInfo
          = TokenJSON.record ⟨some "A", some "R1", some "Bearer", some 3600, some 5000⟩ ∧
        (TokenManager.GetToken alwaysOk 1000 1000 NewTokenManager).token
          = (TokenJSON.record ⟨some "A", some "R1", some "Bearer", some 3600, some 5000⟩).AccessToken) :=
  GetToken_first_acquisition NewTokenManager alwaysOk 1000 200 "200 OK"
    ⟨some "A", some "R1", some "Bearer", some 3600, some 5000⟩
    (by decide) (by decide) (by decide) (by decide) (by decide) (by decide)

/-! ## Failures -/

/-- C7: the code on a new manager with a key, at clock `1000000`, when the
first request meets a transport error and the second is answered `200 OK`.  No
token is pinned and the first acquisition attempt fails, yet `GetToken` returns
the token `"T"` of the second attempt with no error. -/
theorem GetToken_error_overwritten :
    (NewTokenManager.SetKey "k").userToken = "" ∧
      (downThenOk 0 ((NewTokenManager.SetKey "k").tokenRequest
        (NewTokenManager.SetKey "k").requestTokenBody)).failed = true ∧
      (TokenManager.GetToken downThenOk 1000000 1000000 (NewTokenManager.SetKey "k")).sent.length
        = 2 ∧
      (TokenManager.GetToken downThenOk 1000000 1000000 (NewTokenManager.SetKey "k")).token
        = "T" ∧
      (TokenManager.GetToken downThenOk 1000000 1000000 (NewTokenManager.SetKey "k")).errs
        = [] := by
  decide

/-- C8, as stated, fails for a response with a status outside `200..299` whose
body has token members: `postToken` returns an error and the cached
`AccessToken` has been overwritten. -/
theorem postToken_failure_overwrites :
    (errorWithToken 0 ((cachedManager 3600 3600).tokenRequest
        (cachedManager 3600 3600).requestTokenBody)).failed = true ∧
      (TokenManager.postToken errorWithToken ⟨cachedManager 3600 3600, []⟩
        (cachedManager 3600 3600).requestTokenBody).2 ≠ [] ∧
      (TokenManager.postToken errorWithToken ⟨cachedManager 3600 3600, []⟩
        (cachedManager 3600 3600).requestTokenBody).1.tm.tokenInfo
        ≠ (cachedManager 3600 3600).tokenInfo ∧
      (TokenManager.postToken errorWithToken ⟨cachedManager 3600 3600, []⟩
        (cachedManager 3600 3600).requestTokenBody).1.tm.tokenInfo.AccessToken = "X" := by
  decide

/-- C8 (amended): for every cached record and every grant body, if the endpoint
call made by `postToken` ends in a transport error, the cached record after the
call is identical to the record before it; if it ends in a response with a
status code outside `200..299`, `postToken` returns an error and the cached
record is the record before the call with the token members of the response
body written over it, so it is identical to the record before the call when
the body has none of the five members. -/
theorem postToken_record_on_failure (net : Endpoint) (s : Session) (body : Body) :
    (∀ e es, net s.sent.length (s.tm.tokenRequest body) = .transportError e es →
        (TokenManager.postToken net s body).2 ≠ [] ∧
        (TokenManager.postToken net s body).1.tm = s.tm) ∧
      (∀ statusCode status js decodeErr,
        net s.sent.length (s.tm.tokenRequest body) = .response statusCode status js decodeErr →
        (statusCode < 200 ∨ 299 < statusCode) →
        (TokenManager.postToken net s body).2 ≠ [] ∧
        (TokenManager.postToken net s body).1.tm.tokenInfo = js.Unmarshal s.tm.tokenInfo ∧
        (js = ⟨none, none, none, none, none⟩ →
          (TokenManager.postToken net s body).1.tm.tokenInfo = s.tm.tokenInfo)) := by
  refine ⟨?_, ?_⟩
  · intro e es h
    simp [TokenManager.postToken, h]
  · intro statusCode status js decodeErr h hcode
    have hc : statusCode < 200 ∨ statusCode ≥ 300 := by omega
    have hpost : (TokenManager.postToken net s body).2 ≠ [] ∧
        (TokenManager.postToken net s body).1.tm.tokenInfo = js.Unmarshal s.tm.tokenInfo := by
      cases decodeErr with
      | some e => simp [TokenManager.postToken, h]
      | none => simp [TokenManager.postToken, h, hc]
    refine ⟨hpost.1, hpost.2, ?_⟩
    intro hjs
    rw [hpost.2, hjs]
    rfl

theorem postToken_record_on_failure_witness :
    ((TokenManager.postToken unreachableNet ⟨cachedManager 3600 3600, []⟩
          (cachedManager 3600 3600).refreshTokenBody).2 ≠ [] ∧
        (TokenManager.postToken unreachableNet ⟨cachedManager 3600 3600, []⟩
          (cachedManager 3600 3600).refreshTokenBody).1.tm = cachedManager 3600 3600) ∧
      ((TokenManager.postToken alwaysError ⟨cachedManager 3600 3600, []⟩
          (cachedManager 3600 3600).refreshTokenBody).2 ≠ [] ∧
        (TokenManager.postToken alwaysError ⟨cachedManager 3600 3600, []⟩
          (cachedManager 3600 3600).refreshTokenBody).1.tm.tokenInfo
          = TokenJSON.Unmarshal ⟨none, none, none, none, none⟩ (cachedManager 3600 3600).tokenInfo ∧
        ((⟨none, none, none, none, none⟩ : TokenJSON) = ⟨none, none, none, none, none⟩ →
          (TokenManager.postToken alwaysError ⟨cachedManager 3600 3600, []⟩
            (cachedManager 3600 3600).refreshTokenBody).1.tm.tokenInfo
            = (cachedManager 3600 3600).tokenInfo)) :=
  ⟨(postToken_record_on_failure unreachableNet ⟨cachedManager 3600 3600, []⟩
      (cachedManager 3600 3600).refreshTokenBody).1 (.external "dial tcp: timeout") [] rfl,
    (postToken_record_on_failure alwaysError ⟨cachedManager 3600 3600, []⟩
      (cachedManager 3600 3600).refreshTokenBody).2 500 "500 Internal Server Error"
      ⟨none, none, none, none, none⟩ none rfl (by decide)⟩

/-- C9: the code on a new manager with a key, at clock `1000000`, against an
endpoint that answers `500` to everything.  The record is empty and the
key-grant fails, yet `GetToken` sends a second key-grant in the same
invocation: two requests are made, not one. -/
theorem GetToken_second_call_after_failure :
    (NewTokenManager.SetKey "k").userToken = "" ∧
      (NewTokenManager.SetKey "k").tokenInfo = TokenInfo.zero ∧
      (alwaysError 0 ((NewTokenManager.SetKey "k").tokenRequest
        (NewTokenManager.SetKey "k").requestTokenBody)).failed = true ∧
      (TokenManager.GetToken alwaysError 1000000 1000000 (NewTokenManager.SetKey "k")).sent
        = [(NewTokenManager.SetKey "k").tokenRequest (NewTokenManager.SetKey "k").requestTokenBody,
           (NewTokenManager.SetKey "k").tokenRequest
             (NewTokenManager.SetKey "k").requestTokenBody] ∧
      (TokenManager.GetToken alwaysError 1000000 1000000 (NewTokenManager.SetKey "k")).sent.length
        = 2 := by
  decide

/-! ## The refresh-token test -/

/-- C10: for every cached record with `expiration ≤ 2^63 - 1 - 604800` and every
clock value `now`, `isRefreshTokenExpired` returns true exactly when
`expiration + 7*24*3600 < now`; at `now = expiration + 604800` it returns false;
and its result is the same for every manager with the same `expiration`. -/
theorem isRefreshTokenExpired_iff (tm : TokenManager) (now : I64)
    (h : tm.tokenInfo.Expiration.val ≤ 2 ^ 63 - 1 - 604800) :
    (tm.isRefreshTokenExpired now = true ↔
        tm.tokenInfo.Expiration.val + 7 * 24 * 3600 < now.val) ∧
      (now.val = tm.tokenInfo.Expiration.val + 604800 → tm.isRefreshTokenExpired now = false) ∧
      (∀ other : TokenManager, other.tokenInfo.Expiration = tm.tokenInfo.Expiration →
        other.isRefreshTokenExpired now = tm.isRefreshTokenExpired now) := by
  have h' : tm.tokenInfo.Expiration.val ≤ 9223372036854775807 - 604800 := by
    norm_num at h ⊢
    exact h
  rw [TokenManager.isRefreshTokenExpired_eq tm now h']
  refine ⟨?_, ?_, ?_⟩
  · simp only [decide_eq_true_eq]
    norm_num
  · intro hnow
    simp only [decide_eq_false_iff_not]
    omega
  · intro other ho
    rw [TokenManager.isRefreshTokenExpired_eq other now (by rw [ho]; exact h'), ho]

theorem isRefreshTokenExpired_iff_witness :
    ((cachedManager 3600 3600).isRefreshTokenExpired 608400 = true ↔
        (cachedManager 3600 3600).tokenInfo.Expiration.val + 7 * 24 * 3600
          < (608400 : I64).val) ∧
      ((608400 : I64).val = (cachedManager 3600 3600).tokenInfo.Expiration.val + 604800 →
        (cachedManager 3600 3600).isRefreshTokenExpired 608400 = false) ∧
      (∀ other : TokenManager,
        other.tokenInfo.Expiration = (cachedManager 3600 3600).tokenInfo.Expiration →
        other.isRefreshTokenExpired 608400
          = (cachedManager 3600 3600).isRefreshTokenExpired 608400) :=
  isRefreshTokenExpired_iff (cachedManager 3600 3600) 608400 (by decide)

/-! ## Success and failure of `postToken` -/

/-- C11, as stated, fails from right to left: a response with status `200` and
no transport error whose body the JSON decoder rejects makes `postToken` return
a non-empty error list. -/
theorem postToken_undecodable_body :
    okUndecodable 0 (NewTokenManager.tokenRequest NewTokenManager.requestTokenBody)
        = .response 200 "200 OK" ⟨none, none, none, none, none⟩
            (some (.external "invalid character '<' looking for beginning of value")) ∧
      (TokenManager.postToken okUndecodable ⟨NewTokenManager, []⟩
        NewTokenManager.requestTokenBody).2
        = [.external "invalid character '<' looking for beginning of value"] ∧
      (TokenManager.postToken okUndecodable ⟨NewTokenManager, []⟩
        NewTokenManager.requestTokenBody).2 ≠ [] := by
  decide

/-- C11 (amended): `postToken` returns no errors if and only if the endpoint call
had no transport error, the JSON decoder accepted the body of the response, and
the status code `s` satisfies `200 ≤ s ≤ 299`; for every status code outside
`200..299` it returns a non-empty error list, whatever the body of the response
is. -/
theorem postToken_success_iff (net : Endpoint) (s : Session) (body : Body) :
    ((TokenManager.postToken net s body).2 = [] ↔
        ∃ statusCode status js,
          net s.sent.length (s.tm.tokenRequest body) = .response statusCode status js none ∧
          200 ≤ statusCode ∧ statusCode ≤ 299) ∧
      (∀ statusCode status js decodeErr,
        net s.sent.length (s.tm.tokenRequest body) = .response statusCode status js decodeErr →
        (statusCode < 200 ∨ 299 < statusCode) →
        (TokenManager.postToken net s body).2 ≠ []) := by
  refine ⟨?_, ?_⟩
  · cases h : net s.sent.length (s.tm.tokenRequest body) with
    | transportError e es => simp [TokenManager.postToken, h]
    | response statusCode status js decodeErr =>
      cases decodeErr with
      | some e => simp [TokenManager.postToken, h]
      | none =>
        by_cases hc : statusCode < 200 ∨ statusCode ≥ 300
        · simp only [TokenManager.postToken, h, hc, if_true]
          constructor
          · intro hcontra
            simp at hcontra
          · rintro ⟨c, st, j, heq, h1, h2⟩
            simp only [EndStructResult.response.injEq] at heq
            omega
        · simp only [TokenManager.postToken, h, hc, if_false, true_iff]
          exact ⟨statusCode, status, js, rfl, by omega, by omega⟩
  · intro statusCode status js decodeErr h hcode
    have hc : statusCode < 200 ∨ statusCode ≥ 300 := by omega
    cases decodeErr with
    | some e => simp [TokenManager.postToken, h]
    | none => simp [TokenManager.postToken, h, hc]

theorem postToken_success_iff_witness :
    ((TokenManager.postToken alwaysOk ⟨NewTokenManager, []⟩ NewTokenManager.requestTokenBody).2
        = [] ↔
        ∃ statusCode status js,
          alwaysOk (([] : List Request).length)
            (NewTokenManager.tokenRequest NewTokenManager.requestTokenBody)
            = .response statusCode status js none ∧
          200 ≤ statusCode ∧ statusCode ≤ 299) ∧
      (TokenManager.postToken errorWithToken ⟨NewTokenManager, []⟩
        NewTokenManager.requestTokenBody).2 ≠ [] :=
  ⟨(postToken_success_iff alwaysOk ⟨NewTokenManager, []⟩ NewTokenManager.requestTokenBody).1,
    (postToken_success_iff errorWithToken ⟨NewTokenManager, []⟩
      NewTokenManager.requestTokenBody).2 500 "500 Internal Server Error"
      ⟨some "X", none, none, none, none⟩ none rfl (by decide)⟩

/-- C13, as stated, fails for a successful response that lacks a member: with
the previous record holding the refresh token `"ref"`, a `200 OK` response
without `refresh_token` leaves `"ref"` in the cached record, while the record
the response decodes to has an empty refresh token. -/
theorem postToken_keeps_missing_members :
    (TokenManager.postToken okWithoutRefresh ⟨cachedManager 3600 3600, []⟩
        (cachedManager 3600 3600).refreshTokenBody).2 = [] ∧
      (TokenJSON.record ⟨some "B", none, none, none, some 9000⟩).RefreshToken = "" ∧
      (TokenManager.postToken okWithoutRefresh ⟨cachedManager 3600 3600, []⟩
        (cachedManager 3600 3600).refreshTokenBody).1.tm.tokenInfo.RefreshToken = "ref" ∧
      (TokenManager.postToken okWithoutRefresh ⟨cachedManager 3600 3600, []⟩
        (cachedManager 3600 3600).refreshTokenBody).1.tm.tokenInfo
        ≠ TokenJSON.record ⟨some "B", none, none, none, some 9000⟩ := by
  decide

/-- C13 (amended): for every previous cached record `P` and every successful
endpoint response (status in `200..299`, body decoded) with members `js`, the
cached record after `postToken` is `P` with every member the response carries
written over it; when the response carries all five members it equals the
response record `R` in every field, whatever `P` was; a member the response does
not carry keeps the value of `P` (for `refresh_token`: the cached refresh token
stays). -/
theorem postToken_record_on_success (net : Endpoint) (s : Session) (body : Body)
    (statusCode : Int) (status : String) (js : TokenJSON)
    (hnet : net s.sent.length (s.tm.tokenRequest body) = .response statusCode status js none)
    (h₁ : 200 ≤ statusCode) (h₂ : statusCode ≤ 299) :
    (TokenManager.postToken net s body).2 = [] ∧
      (TokenManager.postToken net s body).1.tm.tokenInfo = js.Unmarshal s.tm.tokenInfo ∧
      (js.complete = true → (TokenManager.postToken net s body).1.tm.tokenInfo = js.record) ∧
      (js.refresh_token = none →
        (TokenManager.postToken net s body).1.tm.tokenInfo.RefreshToken
          = s.tm.tokenInfo.RefreshToken) := by
  rw [TokenManager.postToken_of_success net s body statusCode status js hnet h₁ h₂]
  refine ⟨rfl, rfl, ?_, ?_⟩
  · intro hc
    cases js with
    | mk a r t e x =>
      cases a <;> cases r <;> cases t <;> cases e <;> cases x <;>
        simp_all [TokenJSON.complete, TokenJSON.record, TokenJSON.Unmarshal]
  · intro hr
    simp [TokenJSON.Unmarshal, hr]

theorem postToken_record_on_success_witness :
    (TokenManager.postToken okWithoutRefresh ⟨cachedManager 3600 3600, []⟩
        (cachedManager 3600 3600).refreshTokenBody).2 = [] ∧
      (TokenManager.postToken okWithoutRefresh ⟨cachedManager 3600 3600, []⟩
        (cachedManager 3600 3600).refreshTokenBody).1.tm.tokenInfo
        = TokenJSON.Unmarshal ⟨some "B", none, none, none, some 9000⟩
            (cachedManager 3600 3600).tokenInfo ∧
      (TokenJSON.complete ⟨some "B", none, none, none, some 9000⟩ = true →
        (TokenManager.postToken okWithoutRefresh ⟨cachedManager 3600 3600, []⟩
          (cachedManager 3600 3600).refreshTokenBody).1.tm.tokenInfo
          = TokenJSON.record ⟨some "B", none, none, none, some 9000⟩) ∧
      ((⟨some "B", none, none, none, some 9000⟩ : TokenJSON).refresh_token = none →
        (TokenManager.postToken okWithoutRefresh ⟨cachedManager 3600 3600, []⟩
          (cachedManager 3600 3600).refreshTokenBody).1.tm.tokenInfo.RefreshToken
          = (cachedManager 3600 3600).tokenInfo.RefreshToken) :=
  postToken_record_on_success okWithoutRefresh ⟨cachedManager 3600 3600, []⟩
    (cachedManager 3600 3600).refreshTokenBody 200 "200 OK"
    ⟨some "B", none, none, none, some 9000⟩ rfl (by decide) (by decide)

/-! ## Sequences of calls on a pinned manager -/

/-- With a static token pinned `GetToken` returns at once. -/
theorem TokenManager.GetToken_of_pinned (net : Endpoint) (now₁ now₂ : I64) (tm : TokenManager)
    (h : tm.userToken ≠ "") :
    TokenManager.GetToken net now₁ now₂ tm = ⟨tm.userToken, [], tm, []⟩ := by
  simp [TokenManager.GetToken, h]

/-- On a pinned manager every call keeps the user token and the cached record. -/
theorem TokenManager.perform_of_pinned (tm : TokenManager) (c : Call) (h : tm.userToken ≠ "") :
    (tm.perform c).1.userToken = tm.userToken ∧
      (tm.perform c).1.tokenInfo = tm.tokenInfo ∧
      ∀ r, (tm.perform c).2 = some r → r.token = tm.userToken ∧ r.errs = [] ∧ r.sent = [] := by
  cases c with
  | SetKey key => simp [TokenManager.perform, TokenManager.SetKey]
  | GetToken net now₁ now₂ =>
    simp only [TokenManager.perform, TokenManager.GetToken_of_pinned net now₁ now₂ tm h,
      Option.some.injEq, true_and]
    intro r hr
    subst hr
    exact ⟨rfl, rfl, rfl⟩

/-- The invariant of a pinned manager along a history. -/
theorem TokenManager.history_of_pinned (calls : List Call) (tm : TokenManager)
    (h : tm.userToken ≠ "") :
    ∀ e ∈ tm.history calls,
      e.1.userToken = tm.userToken ∧ e.1.tokenInfo = tm.tokenInfo ∧
      ∀ r, e.2 = some r → r.token = tm.userToken ∧ r.errs = [] ∧ r.sent = [] := by
  induction calls generalizing tm with
  | nil => intro e he; simp [TokenManager.history] at he
  | cons c cs ih =>
    intro e he
    have hstep := TokenManager.perform_of_pinned tm c h
    simp only [TokenManager.history, List.mem_cons] at he
    rcases he with he | he
    · subst he
      exact hstep
    · have h' : (tm.perform c).1.userToken ≠ "" := by rw [hstep.1]; exact h
      have := ih (tm.perform c).1 h' e he
      rw [hstep.1, hstep.2.1] at this
      exact this

/-- C12, as stated, fails at the empty string: after `SetToken("")` on a new
manager the first `GetToken` of the sequence sends a key-grant, returns the
token of the response and replaces the cached record. -/
theorem history_after_SetToken_empty :
    ((NewTokenManager.SetToken "").history [.GetToken alwaysOk 1000 1000]).map
        (fun e => (e.1.tokenInfo, e.2.map (fun r => (r.token, r.sent.length))))
      = [(⟨"A", "R1", "Bearer", 3600, 5000⟩, some ("A", 1))] := by
  decide

/-- C12 (amended): pinning is an invariant for non-empty tokens.  After
`SetToken(t)` with `t ≠ ""`, along every finite sequence of `SetKey` and
`GetToken` calls (any keys, any clock readings, any endpoint behaviour): after
each call the user token is `t` and the cached record is the one before the
sequence, and every `GetToken` returns `(t, nil)` and sends no request.
`SetKey` sets the stored API key and leaves every other field as it was. -/
theorem history_after_SetToken (t : String) (ht : t ≠ "") (tm : TokenManager)
    (calls : List Call) :
    (∀ e ∈ (tm.SetToken t).history calls,
        e.1.userToken = t ∧ e.1.tokenInfo = tm.tokenInfo ∧
        ∀ r, e.2 = some r → r.token = t ∧ r.errs = [] ∧ r.sent = []) ∧
      (∀ (m : TokenManager) (key : String),
        (m.SetKey key).iamAPIkey = key ∧ (m.SetKey key).userToken = m.userToken ∧
        (m.SetKey key).iamURL = m.iamURL ∧ (m.SetKey key).tokenInfo = m.tokenInfo) :=
  ⟨TokenManager.history_of_pinned calls (tm.SetToken t) ht, fun _ _ => ⟨rfl, rfl, rfl, rfl⟩⟩

theorem history_after_SetToken_witness :
    (∀ e ∈ ((cachedManager 3600 0).SetToken "pinned").history
          [.GetToken unreachableNet 10 10, .SetKey "k", .GetToken alwaysOk 1000000 1000000],
        e.1.userToken = "pinned" ∧ e.1.tokenInfo = (cachedManager 3600 0).tokenInfo ∧
        ∀ r, e.2 = some r → r.token = "pinned" ∧ r.errs = [] ∧ r.sent = []) ∧
      (∀ (m : TokenManager) (key : String),
        (m.SetKey key).iamAPIkey = key ∧ (m.SetKey key).userToken = m.userToken ∧
        (m.SetKey key).iamURL = m.iamURL ∧ (m.SetKey key).tokenInfo = m.tokenInfo) :=
  history_after_SetToken "pinned" (by decide) (cachedManager 3600 0)
    [.GetToken unreachableNet 10 10, .SetKey "k", .GetToken alwaysOk 1000000 1000000]

/-! ## The renewal path -/

/-- With no token pinned and a token cached, `GetToken` makes no first
acquisition: it returns the cached token if the freshness test passes, and
otherwise what the single `postToken` of the expiry step gives. -/
theorem TokenManager.GetToken_of_cached (net : Endpoint) (now₁ now₂ : I64) (tm : TokenManager)
    (hpin : tm.userToken = "") (hacc : tm.tokenInfo.AccessToken ≠ "") :
    TokenManager.GetToken net now₁ now₂ tm =
      if tm.isTokenExpired now₁ = true then
        (if (TokenManager.postToken net ⟨tm, []⟩ (tm.expiryStepBody now₂)).2 ≠ [] then
          ⟨"", (TokenManager.postToken net ⟨tm, []⟩ (tm.expiryStepBody now₂)).2,
            (TokenManager.postToken net ⟨tm, []⟩ (tm.expiryStepBody now₂)).1.tm,
            (TokenManager.postToken net ⟨tm, []⟩ (tm.expiryStepBody now₂)).1.sent⟩
        else
          ⟨(TokenManager.postToken net ⟨tm, []⟩
              (tm.expiryStepBody now₂)).1.tm.tokenInfo.AccessToken, [],
            (TokenManager.postToken net ⟨tm, []⟩ (tm.expiryStepBody now₂)).1.tm,
            (TokenManager.postToken net ⟨tm, []⟩ (tm.expiryStepBody now₂)).1.sent⟩)
      else
        ⟨tm.tokenInfo.AccessToken, [], tm, []⟩ := by
  unfold TokenManager.GetToken TokenManager.expiryStepBody
  simp only [hpin, hacc, ne_eq, not_true_eq_false, if_false]
  by_cases he : tm.isTokenExpired now₁ = true
  · by_cases hr : tm.isRefreshTokenExpired now₂ = true
    · simp only [he, hr, if_true]
    · simp only [he, hr, if_true, if_false]
      rfl
  · simp only [he, if_false]
    rfl

/-- The requests of an invocation that starts with a cached accessToken: the
request of the expiry step if the freshness test fails, none otherwise. -/
theorem TokenManager.GetToken_sent_of_cached (net : Endpoint) (now₁ now₂ : I64)
    (tm : TokenManager) (hpin : tm.userToken = "") (hacc : tm.tokenInfo.AccessToken ≠ "") :
    (TokenManager.GetToken net now₁ now₂ tm).sent =
      if tm.isTokenExpired now₁ = true then [tm.tokenRequest (tm.expiryStepBody now₂)]
      else [] := by
  rw [TokenManager.GetToken_of_cached net now₁ now₂ tm hpin hacc]
  by_cases he : tm.isTokenExpired now₁ = true
  · rw [if_pos he, if_pos he]
    by_cases hp : (TokenManager.postToken net ⟨tm, []⟩ (tm.expiryStepBody now₂)).2 ≠ []
    · rw [if_pos hp]
      simp [TokenManager.postToken_sent]
    · rw [if_neg hp]
      simp [TokenManager.postToken_sent]
  · rw [if_neg he, if_neg he]

/-- The requests of an invocation that starts with an empty cached accessToken:
the key-grant, followed by the request of the expiry step if the record left by
the key-grant fails the freshness test. -/
theorem TokenManager.GetToken_sent_of_empty (net : Endpoint) (now₁ now₂ : I64)
    (tm : TokenManager) (hpin : tm.userToken = "") (hempty : tm.tokenInfo.AccessToken = "") :
    (TokenManager.GetToken net now₁ now₂ tm).sent =
      tm.tokenRequest tm.requestTokenBody ::
        (if (TokenManager.postToken net ⟨tm, []⟩ tm.requestTokenBody).1.tm.isTokenExpired now₁
            = true then
          [(TokenManager.postToken net ⟨tm, []⟩ tm.requestTokenBody).1.tm.tokenRequest
            ((TokenManager.postToken net ⟨tm, []⟩
              tm.requestTokenBody).1.tm.expiryStepBody now₂)]
        else []) := by
  have h0 : (TokenManager.postToken net ⟨tm, []⟩ tm.requestTokenBody).1.sent
      = [tm.tokenRequest tm.requestTokenBody] := by
    rw [TokenManager.postToken_sent]
    rfl
  unfold TokenManager.GetToken
  simp only [hpin, hempty, ne_eq, not_true_eq_false, if_false, if_true,
    TokenManager.expiryStepBody]
  by_cases he : (TokenManager.postToken net ⟨tm, []⟩ tm.requestTokenBody).1.tm.isTokenExpired now₁
      = true
  · simp only [he, if_true]
    by_cases hr : (TokenManager.postToken net ⟨tm, []⟩
        tm.requestTokenBody).1.tm.isRefreshTokenExpired now₂ = true
    · simp only [hr, if_true]
      split <;> simp [TokenManager.postToken_sent, h0]
    · have hr' : (TokenManager.postToken net ⟨tm, []⟩
          tm.requestTokenBody).1.tm.isRefreshTokenExpired now₂ = false := by simpa using hr
      simp only [hr', Bool.false_eq_true, if_false]
      split <;> simp [TokenManager.postToken_sent, h0]
  · have he' : (TokenManager.postToken net ⟨tm, []⟩
        tm.requestTokenBody).1.tm.isTokenExpired now₁ = false := by simpa using he
    simp only [he', Bool.false_eq_true, if_false]
    split <;> simp [h0]

/-- C16: for every state with no static token pinned, every clock reading and
every endpoint behaviour: whenever `GetToken` returns no error, the string it
returns is the accessToken field of the cached record as it stands after the
call. -/
theorem GetToken_returns_cached_accessToken (net : Endpoint) (now₁ now₂ : I64)
    (tm : TokenManager) (hpin : tm.userToken = "")
    (herr : (TokenManager.GetToken net now₁ now₂ tm).errs = []) :
    (TokenManager.GetToken net now₁ now₂ tm).token
      = (TokenManager.GetToken net now₁ now₂ tm).tm.tokenInfo.AccessToken := by
  have key : ∀ r2 : Session × List GoError,
      (if r2.2 ≠ [] then (⟨"", r2.2, r2.1.tm, r2.1.sent⟩ : TokenManager.Result)
        else ⟨r2.1.tm.tokenInfo.AccessToken, [], r2.1.tm, r2.1.sent⟩).errs = [] →
      (if r2.2 ≠ [] then (⟨"", r2.2, r2.1.tm, r2.1.sent⟩ : TokenManager.Result)
        else ⟨r2.1.tm.tokenInfo.AccessToken, [], r2.1.tm, r2.1.sent⟩).token
      = (if r2.2 ≠ [] then (⟨"", r2.2, r2.1.tm, r2.1.sent⟩ : TokenManager.Result)
        else ⟨r2.1.tm.tokenInfo.AccessToken, [], r2.1.tm, r2.1.sent⟩).tm.tokenInfo.AccessToken := by
    intro r2
    by_cases hc : r2.2 ≠ []
    · rw [if_pos hc]
      intro hcontra
      exact absurd hcontra hc
    · rw [if_neg hc]
      intro _
      rfl
  unfold TokenManager.GetToken at herr ⊢
  rw [if_neg (not_not.mpr hpin)] at herr ⊢
  exact key _ herr

theorem GetToken_returns_cached_accessToken_witness :
    (TokenManager.GetToken alwaysOk 1000 1000 NewTokenManager).token
      = (TokenManager.GetToken alwaysOk 1000 1000 NewTokenManager).tm.tokenInfo.AccessToken :=
  GetToken_returns_cached_accessToken alwaysOk 1000 1000 NewTokenManager (by decide) (by decide)

/-- C17: as coded, the early-refresh margin is zero.  The factor
`int64(1.0 - buffer)` is `0`; for every cached record and clock value
`isTokenExpired` returns true exactly when `expiration < now`; and replacing
`expiresIn` by any other value does not change its result. -/
theorem isTokenExpired_iff (tm : TokenManager) (now : I64) :
    (F64.toInt64 (F64.sub F64.one TokenManager.buffer)).val = 0 ∧
      (tm.isTokenExpired now = true ↔ tm.tokenInfo.Expiration.val < now.val) ∧
      ∀ expiresIn : I64,
        TokenManager.isTokenExpired
            { tm with tokenInfo := { tm.tokenInfo with ExpiresIn := expiresIn } } now
          = tm.isTokenExpired now := by
  refine ⟨by decide, ?_, ?_⟩
  · rw [TokenManager.isTokenExpired_eq]
    simp only [decide_eq_true_eq]
  · intro expiresIn
    rw [TokenManager.isTokenExpired_eq, TokenManager.isTokenExpired_eq]

/-- C18: for every state, clock reading and endpoint behaviour, one invocation
of `GetToken` makes at most two calls to the token endpoint; when it makes two,
no token is pinned, the cached accessToken was empty, and the first call is the
key-grant of the first acquisition. -/
theorem GetToken_at_most_two_calls (net : Endpoint) (now₁ now₂ : I64) (tm : TokenManager) :
    (TokenManager.GetToken net now₁ now₂ tm).sent.length ≤ 2 ∧
      ((TokenManager.GetToken net now₁ now₂ tm).sent.length = 2 →
        tm.userToken = "" ∧ tm.tokenInfo.AccessToken = "" ∧
        (TokenManager.GetToken net now₁ now₂ tm).sent.head?
          = some (tm.tokenRequest tm.requestTokenBody) ∧
        (tm.tokenRequest tm.requestTokenBody).isKeyGrant = true) := by
  by_cases hpin : tm.userToken = ""
  · by_cases hacc : tm.tokenInfo.AccessToken = ""
    · rw [TokenManager.GetToken_sent_of_empty net now₁ now₂ tm hpin hacc]
      refine ⟨?_, fun _ => ⟨hpin, hacc, rfl, rfl⟩⟩
      split <;> simp
    · have hlen : (TokenManager.GetToken net now₁ now₂ tm).sent.length ≤ 1 := by
        rw [TokenManager.GetToken_sent_of_cached net now₁ now₂ tm hpin hacc]
        split <;> simp
      exact ⟨by omega, fun h => by omega⟩
  · have hlen : (TokenManager.GetToken net now₁ now₂ tm).sent.length = 0 := by
      rw [TokenManager.GetToken_of_pinned net now₁ now₂ tm hpin]
      rfl
    exact ⟨by omega, fun h => by omega⟩

theorem GetToken_at_most_two_calls_witness :
    (TokenManager.GetToken expiredThenDown 1000 1000 NewTokenManager).sent.length ≤ 2 ∧
      (NewTokenManager.userToken = "" ∧ NewTokenManager.tokenInfo.AccessToken = "" ∧
        (TokenManager.GetToken expiredThenDown 1000 1000 NewTokenManager).sent.head?
          = some (NewTokenManager.tokenRequest NewTokenManager.requestTokenBody) ∧
        (NewTokenManager.tokenRequest NewTokenManager.requestTokenBody).isKeyGrant = true) :=
  ⟨(GetToken_at_most_two_calls expiredThenDown 1000 1000 NewTokenManager).1,
    (GetToken_at_most_two_calls expiredThenDown 1000 1000 NewTokenManager).2 (by decide)⟩

/-- C19: for every cached record with `expiration ≤ 2^63 - 1 - 604800` and every
clock value `now`, `isRefreshTokenExpired` implies `isTokenExpired`; and both
tests are monotone in time: a test that is true at `now` is true at every later
clock value for the same record. -/
theorem expiry_tests_consistent (tm : TokenManager) (now : I64)
    (h : tm.tokenInfo.Expiration.val ≤ 2 ^ 63 - 1 - 604800) :
    (tm.isRefreshTokenExpired now = true → tm.isTokenExpired now = true) ∧
      (∀ later : I64, now.val ≤ later.val →
        tm.isTokenExpired now = true → tm.isTokenExpired later = true) ∧
      (∀ later : I64, now.val ≤ later.val →
        tm.isRefreshTokenExpired now = true → tm.isRefreshTokenExpired later = true) := by
  have h' : tm.tokenInfo.Expiration.val ≤ 9223372036854775807 - 604800 := by
    norm_num at h ⊢
    exact h
  refine ⟨?_, ?_, ?_⟩
  · rw [TokenManager.isRefreshTokenExpired_eq tm now h', TokenManager.isTokenExpired_eq]
    simp only [decide_eq_true_eq]
    omega
  · intro later hl
    rw [TokenManager.isTokenExpired_eq, TokenManager.isTokenExpired_eq]
    simp only [decide_eq_true_eq]
    omega
  · intro later hl
    rw [TokenManager.isRefreshTokenExpired_eq tm now h',
      TokenManager.isRefreshTokenExpired_eq tm later h']
    simp only [decide_eq_true_eq]
    omega

theorem expiry_tests_consistent_witness :
    ((cachedManager 3600 3600).isRefreshTokenExpired 700000 = true →
        (cachedManager 3600 3600).isTokenExpired 700000 = true) ∧
      (∀ later : I64, (700000 : I64).val ≤ later.val →
        (cachedManager 3600 3600).isTokenExpired 700000 = true →
        (cachedManager 3600 3600).isTokenExpired later = true) ∧
      (∀ later : I64, (700000 : I64).val ≤ later.val →
        (cachedManager 3600 3600).isRefreshTokenExpired 700000 = true →
        (cachedManager 3600 3600).isRefreshTokenExpired later = true) :=
  expiry_tests_consistent (cachedManager 3600 3600) 700000 (by decide)

/-- A response that carries all five members, or one decoded into the zero
record, leaves the response record in the target. -/
theorem TokenJSON.Unmarshal_eq_record (js : TokenJSON) (v : TokenInfo)
    (h : js.complete = true ∨ v = TokenInfo.zero) : js.Unmarshal v = js.record := by
  rcases h with h | h
  · cases js with
    | mk a r t e x =>
      cases a <;> cases r <;> cases t <;> cases e <;> cases x <;>
        simp_all [TokenJSON.complete, TokenJSON.record, TokenJSON.Unmarshal]
  · rw [h]
    rfl

/-- C15, as stated, fails when the record the key-grant succeeded with is not
the record in the cache: with the refresh token `"old"` left in the previous
record and a `200 OK` response without `refresh_token`, the response record `R`
is expired at clock `1000` with its refresh window open and has an empty
refresh token, and the second request of `GetToken` is a refresh-grant carrying
`"old"`, not `R.RefreshToken`. -/
theorem GetToken_second_call_carries_cached_refreshToken :
    leftoverManager.userToken = "" ∧ leftoverManager.tokenInfo.AccessToken = "" ∧
      partialThenOk 0 (leftoverManager.tokenRequest leftoverManager.requestTokenBody)
        = .response 200 "200 OK" withoutRefreshMembers none ∧
      TokenManager.isTokenExpired
        { leftoverManager with tokenInfo := withoutRefreshMembers.record } 1000 = true ∧
      TokenManager.isRefreshTokenExpired
        { leftoverManager with tokenInfo := withoutRefreshMembers.record } 1000 = false ∧
      withoutRefreshMembers.record.RefreshToken = "" ∧
      (TokenManager.GetToken partialThenOk 1000 1000 leftoverManager).sent
        = [leftoverManager.tokenRequest leftoverManager.requestTokenBody,
           leftoverManager.tokenRequest
             [("grant_type", "refresh_token"), ("refresh_token", "old")]] ∧
      (TokenManager.GetToken partialThenOk 1000 1000 leftoverManager).sent
        ≠ [leftoverManager.tokenRequest leftoverManager.requestTokenBody,
           leftoverManager.tokenRequest
             [("grant_type", "refresh_token"),
              ("refresh_token", withoutRefreshMembers.record.RefreshToken)]] := by
  decide

/-- C15 (amended): non-short-circuited sequencing.  For every state with no
static token pinned and an empty cached accessToken, if the key-grant succeeds
and the record `R` it leaves in the cache (the previous record with the members
of the response written over it; the response record itself when the response
carries all five members or the previous record was the zero record) is found
expired by `isTokenExpired` at the clock value, then `GetToken` sends a second
request in the same invocation, chosen against `R`: the refresh-grant carrying
`R.RefreshToken` when `isRefreshTokenExpired` is false for `R` (which, for
`R.Expiration ≤ 2^63 - 1 - 604800`, means `now ≤ R.Expiration + 604800`), the
key-grant otherwise; and what `GetToken` returns and leaves behind is what that
second `postToken` gives (`p`): its errors, its record, and its accessToken
when there is no error. -/
theorem GetToken_second_call_on_expired_record (tm : TokenManager) (net : Endpoint) (now : I64)
    (statusCode : Int) (status : String) (js : TokenJSON) (R : TokenInfo) (tm1 : TokenManager)
    (p : Session × List GoError)
    (hpin : tm.userToken = "") (hempty : tm.tokenInfo.AccessToken = "")
    (hnet : net 0 (tm.tokenRequest tm.requestTokenBody) = .response statusCode status js none)
    (h₁ : 200 ≤ statusCode) (h₂ : statusCode ≤ 299)
    (hR : R = js.Unmarshal tm.tokenInfo)
    (htm1 : tm1 = { tm with tokenInfo := R })
    (hexp : tm1.isTokenExpired now = true)
    (hp : p = TokenManager.postToken net ⟨tm1, [tm.tokenRequest tm.requestTokenBody]⟩
      (tm1.expiryStepBody now)) :
    (TokenManager.GetToken net now now tm).sent =
        [tm.tokenRequest tm.requestTokenBody, tm1.tokenRequest (tm1.expiryStepBody now)] ∧
      (tm1.isRefreshTokenExpired now = false →
        tm1.expiryStepBody now
          = [("grant_type", "refresh_token"), ("refresh_token", R.RefreshToken)]) ∧
      (tm1.isRefreshTokenExpired now = true →
        tm1.expiryStepBody now
          = [("grant_type", "urn:ibm:params:oauth:grant-type:apikey"), ("apikey", tm.iamAPIkey),
             ("response_type", "cloud_iam")]) ∧
      (TokenManager.GetToken net now now tm).errs = p.2 ∧
      (TokenManager.GetToken net now now tm).tm = p.1.tm ∧
      (TokenManager.GetToken net now now tm).token
        = (if p.2 = [] then p.1.tm.tokenInfo.AccessToken else "") ∧
      (js.complete = true ∨ tm.tokenInfo = TokenInfo.zero → R = js.record) ∧
      (R.Expiration.val ≤ 2 ^ 63 - 1 - 604800 →
        (tm1.isRefreshTokenExpired now = false ↔ now.val ≤ R.Expiration.val + 604800)) := by
  have hpost := TokenManager.postToken_of_success net ⟨tm, []⟩ tm.requestTokenBody
    statusCode status js hnet h₁ h₂
  have hpost' : TokenManager.postToken net ⟨tm, []⟩ tm.requestTokenBody
      = (⟨tm1, [tm.tokenRequest tm.requestTokenBody]⟩, []) := by
    rw [hpost, htm1, hR]
    rfl
  have hres : TokenManager.GetToken net now now tm =
      (if p.2 ≠ [] then ⟨"", p.2, p.1.tm, p.1.sent⟩
        else ⟨p.1.tm.tokenInfo.AccessToken, [], p.1.tm, p.1.sent⟩) := by
    unfold TokenManager.GetToken
    rw [if_neg (not_not.mpr hpin)]
    simp only [hempty, if_true, hpost', hexp]
    rw [hp, TokenManager.expiryStepBody]
    by_cases hr : tm1.isRefreshTokenExpired now = true
    · simp only [hr, if_true]
    · simp only [hr, if_false]
      rfl
  have hsent : p.1.sent
      = [tm.tokenRequest tm.requestTokenBody, tm1.tokenRequest (tm1.expiryStepBody now)] := by
    rw [hp, TokenManager.postToken_sent]
    rfl
  refine ⟨?_, ?_, ?_, ?_, ?_, ?_, ?_, ?_⟩
  · rw [hres, ← hsent]
    split <;> rfl
  · intro hr
    rw [TokenManager.expiryStepBody, hr, htm1]
    rfl
  · intro hr
    rw [TokenManager.expiryStepBody, if_pos hr, htm1]
    rfl
  · rw [hres]
    by_cases hc : p.2 = []
    · simp [hc]
    · simp [hc]
  · rw [hres]
    split <;> rfl
  · rw [hres]
    by_cases hc : p.2 = []
    · simp [hc]
    · simp [hc]
  · intro h
    rw [hR]
    exact TokenJSON.Unmarshal_eq_record js tm.tokenInfo h
  · intro hb
    have hb' : tm1.tokenInfo.Expiration.val ≤ 9223372036854775807 - 604800 := by
      rw [htm1]
      norm_num at hb ⊢
      exact hb
    have hE : tm1.tokenInfo.Expiration = R.Expiration := by rw [htm1]
    rw [TokenManager.isRefreshTokenExpired_eq tm1 now hb', hE]
    simp only [decide_eq_false_iff_not]
    omega

theorem GetToken_second_call_on_expired_record_witness :
    (TokenManager.GetToken expiredThenOk 1000 1000 NewTokenManager).sent =
        [NewTokenManager.tokenRequest NewTokenManager.requestTokenBody,
          TokenManager.tokenRequest { NewTokenManager with tokenInfo := expiredRecord }
            [("grant_type", "refresh_token"), ("refresh_token", "R1")]] ∧
      (TokenManager.isRefreshTokenExpired
          { NewTokenManager with tokenInfo := expiredRecord } 1000 = false →
        TokenManager.expiryStepBody { NewTokenManager with tokenInfo := expiredRecord } 1000
          = [("grant_type", "refresh_token"), ("refresh_token", expiredRecord.RefreshToken)]) ∧
      (TokenManager.isRefreshTokenExpired
          { NewTokenManager with tokenInfo := expiredRecord } 1000 = true →
        TokenManager.expiryStepBody { NewTokenManager with tokenInfo := expiredRecord } 1000
          = [("grant_type", "urn:ibm:params:oauth:grant-type:apikey"),
             ("apikey", NewTokenManager.iamAPIkey), ("response_type", "cloud_iam")]) ∧
      (TokenManager.GetToken expiredThenOk 1000 1000 NewTokenManager).errs = [] ∧
      (TokenManager.GetToken expiredThenOk 1000 1000 NewTokenManager).tm
        = { NewTokenManager with tokenInfo := ⟨"B", "R1", "Bearer", 3600, 5000⟩ } ∧
      (TokenManager.GetToken expiredThenOk 1000 1000 NewTokenManager).token = "B" ∧
      (TokenJSON.complete ⟨some "A", some "R1", some "Bearer", some 3600, some 500⟩ = true ∨
          NewTokenManager.tokenInfo = TokenInfo.zero →
        expiredRecord
          = TokenJSON.record ⟨some "A", some "R1", some "Bearer", some 3600, some 500⟩) ∧
      (expiredRecord.Expiration.val ≤ 2 ^ 63 - 1 - 604800 →
        (TokenManager.isRefreshTokenExpired
            { NewTokenManager with tokenInfo := expiredRecord } 1000 = false ↔
          (1000 : I64).val ≤ expiredRecord.Expiration.val + 604800)) :=
  GetToken_second_call_on_expired_record NewTokenManager expiredThenOk 1000 200 "200 OK"
    ⟨some "A", some "R1", some "Bearer", some 3600, some 500⟩ expiredRecord
    { NewTokenManager with tokenInfo := expiredRecord }
    (TokenManager.postToken expiredThenOk
      ⟨{ NewTokenManager with tokenInfo := expiredRecord },
        [NewTokenManager.tokenRequest NewTokenManager.requestTokenBody]⟩
      (TokenManager.expiryStepBody { NewTokenManager with tokenInfo := expiredRecord } 1000))
    (by decide) (by decide) (by decide) (by decide) (by decide) (by decide) rfl (by decide) rfl

end Golangsdk
